import Mathlib

/-!
Shallow embedding of `src/main.py` (an OAuth2 callback relay service).

Python dicts holding JSON data are modelled by the inductive `JVal`
(objects as ordered association lists with unique keys, as produced by
`json.load`); the global token map `tokens : Dict[str, Dict]` is a
`TokMap`.  The two HTTP exchanges against the identity provider are the
only external effects; they are supplied to the embedded functions as an
explicit `ProviderResult` oracle (HTTP success flag, parsed JSON body,
error message).  File contents are modelled as the parsed JSON values
(`json.dump` followed by `json.load` is the identity on these values),
and each operation reports how many `save_tokens` writes it performed and
what the token file holds afterwards.
-/

/-- A JSON value as held in a Python object tree: `None`, `bool`, `int`,
`str`, `list`, `dict` (ordered fields).  Floats do not occur in the data
this service produces and are omitted. -/
inductive JVal where
  | jnull
  | jbool (b : Bool)
  | jint (n : Int)
  | jstr (s : String)
  | jarr (xs : List JVal)
  | jobj (fields : List (String × JVal))

/-- The in-memory token map `tokens : Dict[str, Dict]`: `state` keys to
record values, in insertion order, keys unique (a Python dict). -/
abbrev TokMap := List (String × JVal)

/-- Python `d.get(k)` on an association list: first binding wins. -/
def lookupKey : List (String × JVal) → String → Option JVal
  | [], _ => none
  | (k', v) :: rest, k => if k' = k then some v else lookupKey rest k

/-- Python `d[k] = v`: replace the existing binding in place, else append. -/
def setKey : List (String × JVal) → String → JVal → List (String × JVal)
  | [], k, v => [(k, v)]
  | (k', v') :: rest, k, v =>
    if k' = k then (k, v) :: rest else (k', v') :: setKey rest k v

/-- Python `d.pop(k, None)`: drop the binding for `k` if present. -/
def popKey : List (String × JVal) → String → List (String × JVal)
  | [], _ => []
  | (k', v') :: rest, k => if k' = k then rest else (k', v') :: popKey rest k

/-- Python truthiness (`if not x`): `None`, `False`, `0`, `""`, `[]`, `{}`
are falsy, everything else truthy. -/
def pyTruthy : JVal → Bool
  | .jnull => false
  | .jbool b => b
  | .jint n => n != 0
  | .jstr s => s != ""
  | .jarr xs => !xs.isEmpty
  | .jobj fs => !fs.isEmpty

/-- Python `int(x)` on a JSON value: ints pass through, bools map to 0/1,
integer-literal strings parse, everything else (`None`, lists, dicts,
non-integer strings) raises — modelled as `none`. -/
def pyInt : JVal → Option Int
  | .jint n => some n
  | .jbool b => some (if b then 1 else 0)
  | .jstr s => s.toInt?
  | _ => none

/-- `BUFFER_MAX = 200`, the audit deque capacity. -/
def BUFFER_MAX : Nat := 200

/-- `pending.append(item)` on a `deque(maxlen=BUFFER_MAX)`: append, and
once at capacity silently evict the oldest (leftmost) entry. -/
def dqPush (dq : List JVal) (x : JVal) : List JVal :=
  if dq.length < BUFFER_MAX then dq ++ [x] else dq.tail ++ [x]

/-- The `expires_at` sanitisation step of `load_all` on one record:
if the field is present, replace it by `int(value["expires_at"])`, and on
any coercion failure by `int(time.time()) + 300`; a record without the
field is left untouched. -/
def coerce_expires (now : Int) (rec : List (String × JVal)) :
    List (String × JVal) :=
  match lookupKey rec "expires_at" with
  | none => rec
  | some v =>
    setKey rec "expires_at"
      (match pyInt v with
       | some n => .jint n
       | none => .jint (now + 300))

/-- The token half of `load_all`: given the parsed content of
`tokens.json` (any JSON value) and the load-time clock, produce the new
in-memory `tokens` map.  A non-dict top level yields `{}`; a non-dict
entry value is popped; each kept record has `expires_at` coerced by
`coerce_expires`. -/
def load_tokens (loaded : JVal) (now : Int) : TokMap :=
  match loaded with
  | .jobj fs =>
    fs.filterMap fun kv =>
      match kv.2 with
      | .jobj rec => some (kv.1, JVal.jobj (coerce_expires now rec))
      | _ => none
  | _ => []

/-- The outcome of one outbound HTTP exchange against the provider:
`ok` is the HTTP-level success of `r.raise_for_status()`, `resp` the
fields of the parsed JSON body on success, `errMsg` the `str(e)` of the
`httpx.HTTPError` on failure. -/
structure ProviderResult where
  ok : Bool
  resp : List (String × JVal)
  errMsg : String

/-- How an exchange helper can raise: `http` is an `httpx.HTTPError`
(the only class `hh_callback` catches) carrying `str(e)`; `pyerr` is any
other Python exception (e.g. `ValueError` from `int()`), never caught. -/
inductive ExchangeErr where
  | http (msg : String)
  | pyerr

/-- `refresh_with_refresh_token` (and identically the normalisation tail
of `exchange_code_for_tokens`): on a non-success HTTP status
`r.raise_for_status()` raises `httpx.HTTPError`; on success set
`j["expires_at"] = now + int(j.get("expires_in", 3600))`, where a failing
`int()` raises a non-httpx error. -/
def normalize_exchange (provider : ProviderResult) (now : Int) :
    Except ExchangeErr (List (String × JVal)) :=
  if !provider.ok then .error (.http provider.errMsg)
  else
    match pyInt ((lookupKey provider.resp "expires_in").getD (.jint 3600)) with
    | none => .error .pyerr
    | some ei => .ok (setKey provider.resp "expires_at" (.jint (now + ei)))

/-- What `get_valid_access_token_for_state` produces for its caller:
a normal return (Python `None` or a record), or a propagated exception. -/
inductive GVOut where
  | ok (ret : Option JVal)
  | exc

/-- One call of `get_valid_access_token_for_state` observed whole: the
outcome, the token map and token-file content afterwards, and how many
`save_tokens` writes and refresh HTTP calls it performed. -/
structure GVResult where
  out : GVOut
  tokens : TokMap
  disk : TokMap
  saves : Nat
  refreshCalls : Nat

/-- `get_valid_access_token_for_state(state)`: `None` for an unknown (or
falsy) record; otherwise refresh iff `now >= int(item.get("expires_at", 0)) - 60`
and a truthy `refresh_token` is present, rebuilding and persisting the
stored record from the refresh response (`refresh_token` kept from the
old record when the response has none, `token_type` defaulting to
`"Bearer"`); a stale record without a refresh token is returned as-is.
`provider` is the oracle for the (at most one) refresh HTTP call. -/
def get_valid_access_token_for_state (provider : ProviderResult) (now : Int)
    (tokens disk : TokMap) (state : String) : GVResult :=
  match lookupKey tokens state with
  | none => ⟨.ok none, tokens, disk, 0, 0⟩
  | some item =>
    if !pyTruthy item then ⟨.ok none, tokens, disk, 0, 0⟩
    else
      match item with
      | .jobj rec =>
        match pyInt ((lookupKey rec "expires_at").getD (.jint 0)) with
        | none => ⟨.exc, tokens, disk, 0, 0⟩
        | some expires_at =>
          if now ≥ expires_at - 60 then
            let refresh_token := (lookupKey rec "refresh_token").getD .jnull
            if !pyTruthy refresh_token then
              ⟨.ok (some item), tokens, disk, 0, 0⟩
            else
              match normalize_exchange provider now with
              | .error _ => ⟨.exc, tokens, disk, 0, 1⟩
              | .ok refreshed =>
                match lookupKey refreshed "access_token" with
                | none => ⟨.exc, tokens, disk, 0, 1⟩
                | some atv =>
                  let newRec : JVal := .jobj
                    [("access_token", atv),
                     ("refresh_token",
                       (lookupKey refreshed "refresh_token").getD refresh_token),
                     ("token_type",
                       (lookupKey refreshed "token_type").getD (.jstr "Bearer")),
                     ("expires_in",
                       (lookupKey refreshed "expires_in").getD .jnull),
                     ("expires_at",
                       (lookupKey refreshed "expires_at").getD .jnull)]
                  let tokens' := setKey tokens state newRec
                  ⟨.ok (some newRec), tokens', tokens', 1, 1⟩
          else ⟨.ok (some item), tokens, disk, 0, 0⟩
      | _ => ⟨.exc, tokens, disk, 0, 0⟩

/-- Python truthiness of an optional query parameter (`not code`):
absent or empty is falsy. -/
def pyTruthyStrOpt : Option String → Bool
  | none => false
  | some s => s != ""

/-- An HTTP handler outcome: a response with status and body text, or an
exception that escapes the handler. -/
inductive HOut where
  | resp (status : Nat) (body : String)
  | exc

/-- The process-wide mutable state touched by the handlers: the token
map, the audit deque, and the parsed contents of their two files. -/
structure AppState where
  tokens : TokMap
  pending : List JVal
  tokensDisk : TokMap
  pendingDisk : List JVal

/-- The audit-trail item `hh_callback` appends to `pending`:
`{"state": state, "code": code, "ts": int(time.time()), "ip": ...}` with a
`None` ip when `request.client` is absent. -/
def audit_item (now : Int) (ip : Option String) (c s : String) : JVal :=
  .jobj [("state", .jstr s), ("code", .jstr c), ("ts", .jint now),
         ("ip", match ip with | some h => .jstr h | none => .jnull)]

/-- One `hh_callback` request observed whole: response, state afterwards,
and the number of `save_tokens` / `save_pending` writes performed. -/
structure CBResult where
  out : HOut
  st : AppState
  tokenSaves : Nat
  pendingSaves : Nat

/-- `hh_callback`: reject falsy `code`/`state` with 400 before touching
anything; else append the audit item to `pending` and persist it, then
exchange the code.  An `httpx.HTTPError` from the exchange yields a 500
text response carrying `str(e)`; any other exception escapes; on success
build the record (`refresh_token` defaulting to `None`, `token_type` to
`"Bearer"`), store it under `state`, persist the map and answer 200.
`ex` is the oracle for the code-for-token HTTP call. -/
def hh_callback (ex : ProviderResult) (now : Int) (ip : Option String)
    (code state : Option String) (st : AppState) : CBResult :=
  if !(pyTruthyStrOpt code && pyTruthyStrOpt state) then
    ⟨.resp 400 "Missing code/state", st, 0, 0⟩
  else
    let c := code.getD ""
    let s := state.getD ""
    let pending' := dqPush st.pending (audit_item now ip c s)
    let st1 : AppState := { st with pending := pending', pendingDisk := pending' }
    match normalize_exchange ex now with
    | .error (.http msg) =>
      ⟨.resp 500 ("Ошибка авторизации: " ++ msg), st1, 0, 1⟩
    | .error .pyerr => ⟨.exc, st1, 0, 1⟩
    | .ok token =>
      match lookupKey token "access_token" with
      | none => ⟨.exc, st1, 0, 1⟩
      | some atv =>
        let newRec : JVal := .jobj
          [("access_token", atv),
           ("refresh_token", (lookupKey token "refresh_token").getD .jnull),
           ("token_type", (lookupKey token "token_type").getD (.jstr "Bearer")),
           ("expires_in", (lookupKey token "expires_in").getD .jnull),
           ("expires_at", (lookupKey token "expires_at").getD .jnull)]
        let tokens' := setKey st1.tokens s newRec
        ⟨.resp 200 "Вы успешно авторизовались в HH.ru, можете вернуться в Telegram",
         { st1 with tokens := tokens', tokensDisk := tokens' }, 1, 1⟩

/-- `require_admin`: raise `HTTPException(401)` unless the supplied
header value equals the configured `ADMIN_TOKEN` (both may be absent). -/
def require_admin (admin_token ADMIN_TOKEN : Option String) :
    Except Nat Unit :=
  if admin_token ≠ ADMIN_TOKEN then .error 401 else .ok ()

/-- One `admin_delete_state` request observed whole: the response
(`401`, or the `deleted` flag), the token map and file afterwards, and
the number of `save_tokens` writes. -/
structure DelResult where
  resp : Except Nat Bool
  tokens : TokMap
  disk : TokMap
  saves : Nat

/-- `admin_delete_state`: after the admin check, `tokens.pop(state, None)`,
then `save_tokens()` unconditionally, reporting `bool(existed)`. -/
def admin_delete_state (ADMIN_TOKEN admin_token : Option String)
    (state : String) (tokens disk : TokMap) : DelResult :=
  match require_admin admin_token ADMIN_TOKEN with
  | .error c => ⟨.error c, tokens, disk, 0⟩
  | .ok _ =>
    let existed := lookupKey tokens state
    let tokens' := popKey tokens state
    ⟨.ok (match existed with | some v => pyTruthy v | none => false),
     tokens', tokens', 1⟩

/-- Modelled from the amended round-trip behaviour: a record value with
every field kept in place and only an `expires_at` field (when present)
re-coerced through `int()` — parseable values become their integer,
unparseable ones become `now + 300`; non-dict values pass through.  This
is the comparator the round-trip theorem measures `load_tokens` against. -/
def recoerceField (now : Int) (f : String × JVal) : String × JVal :=
  if f.1 = "expires_at" then
    (f.1, match pyInt f.2 with
          | some n => JVal.jint n
          | none => JVal.jint (now + 300))
  else f

/-- The comparator proper: `recoerceField` over a record's fields,
non-dict values passed through. -/
def recoerce_expires_spec (now : Int) : JVal → JVal
  | .jobj rec => .jobj (rec.map (recoerceField now))
  | v => v

theorem lookupKey_setKey_self (fs : List (String × JVal)) (k : String) (v : JVal) :
    lookupKey (setKey fs k v) k = some v := by
  induction fs with
  | nil => simp [setKey, lookupKey]
  | cons p rest ih =>
    unfold setKey
    by_cases h : p.1 = k
    · simp [h, lookupKey]
    · simp [h, lookupKey, ih]

theorem lookupKey_setKey_ne (fs : List (String × JVal)) (k q : String) (v : JVal)
    (h : q ≠ k) : lookupKey (setKey fs k v) q = lookupKey fs q := by
  induction fs with
  | nil => simp [setKey, lookupKey, Ne.symm h]
  | cons p rest ih =>
    unfold setKey
    by_cases hpk : p.1 = k
    · simp [hpk, lookupKey, Ne.symm h]
    · simp [hpk, lookupKey, ih]

theorem popKey_of_lookupKey_none (fs : List (String × JVal)) (k : String)
    (h : lookupKey fs k = none) : popKey fs k = fs := by
  induction fs with
  | nil => rfl
  | cons p rest ih =>
    unfold lookupKey at h
    by_cases hpk : p.1 = k
    · simp [hpk] at h
    · simp [hpk] at h
      simp [popKey, hpk, ih h]

theorem dqPush_length_le (dq : List JVal) (x : JVal)
    (h : dq.length ≤ BUFFER_MAX) : (dqPush dq x).length ≤ BUFFER_MAX := by
  unfold dqPush
  split
  · rename_i hlt
    simp only [List.length_append, List.length_singleton]
    omega
  · rename_i hge
    simp only [List.length_append, List.length_singleton, List.length_tail]
    simp only [BUFFER_MAX] at *
    omega

/-- Folding `deque.append` over any sequence of pushes keeps exactly the
last `BUFFER_MAX` elements of the pushed-so-far sequence. -/
theorem foldl_dqPush_eq_drop (es dq : List JVal) (h : dq.length ≤ BUFFER_MAX) :
    List.foldl dqPush dq es = (dq ++ es).drop ((dq ++ es).length - BUFFER_MAX) := by
  induction es generalizing dq with
  | nil =>
    rw [List.foldl_nil, List.append_nil, Nat.sub_eq_zero_of_le h, List.drop_zero]
  | cons x es ih =>
    rw [List.foldl_cons, ih (dqPush dq x) (dqPush_length_le dq x h)]
    by_cases hlt : dq.length < BUFFER_MAX
    · have hpush : dqPush dq x = dq ++ [x] := by
        unfold dqPush
        rw [if_pos hlt]
      rw [hpush, List.append_assoc, List.singleton_append]
    · have hlen : dq.length = BUFFER_MAX := by omega
      cases dq with
      | nil => simp [BUFFER_MAX] at hlen
      | cons d dtl =>
        have hpush : dqPush (d :: dtl) x = dtl ++ [x] := by
          unfold dqPush
          rw [if_neg hlt]
          rfl
        rw [hpush]
        have hdtl : dtl.length + 1 = BUFFER_MAX := by simpa using hlen
        have e1 : (dtl ++ [x] ++ es).length - BUFFER_MAX = es.length := by
          simp only [List.length_append, List.length_singleton]
          omega
        have e2 : ((d :: dtl) ++ x :: es).length - BUFFER_MAX = es.length + 1 := by
          simp only [List.length_append, List.length_cons]
          omega
        rw [e1, e2, List.cons_append, List.drop_succ_cons,
          List.append_assoc, List.singleton_append]

theorem coerce_expires_of_none (now : Int) (rec : List (String × JVal))
    (h : lookupKey rec "expires_at" = none) : coerce_expires now rec = rec := by
  unfold coerce_expires
  rw [h]

theorem coerce_expires_of_some (now : Int) (rec : List (String × JVal)) (v : JVal)
    (h : lookupKey rec "expires_at" = some v) :
    coerce_expires now rec
      = setKey rec "expires_at"
          (match pyInt v with
           | some n => JVal.jint n
           | none => JVal.jint (now + 300)) := by
  unfold coerce_expires
  rw [h]

/-- After `load_all`'s sanitisation, an `expires_at` field (if any) is an
integer. -/
theorem coerce_expires_int (now : Int) (rec : List (String × JVal)) (w : JVal)
    (h : lookupKey (coerce_expires now rec) "expires_at" = some w) :
    ∃ n : Int, w = JVal.jint n := by
  cases hl : lookupKey rec "expires_at" with
  | none =>
    rw [coerce_expires_of_none now rec hl, hl] at h
    exact Option.noConfusion h
  | some v =>
    rw [coerce_expires_of_some now rec v hl, lookupKey_setKey_self] at h
    cases hp : pyInt v with
    | none =>
      simp only [hp] at h
      exact ⟨now + 300, by injection h with h2; exact h2.symm⟩
    | some n =>
      simp only [hp] at h
      exact ⟨n, by injection h with h2; exact h2.symm⟩

theorem lookupKey_eq_none_of_not_mem (fs : List (String × JVal)) (k : String)
    (h : k ∉ fs.map Prod.fst) : lookupKey fs k = none := by
  induction fs with
  | nil => rfl
  | cons p rest ih =>
    obtain ⟨k₀, v₀⟩ := p
    simp only [List.map_cons, List.mem_cons, not_or] at h
    have hk : ¬ (k₀ = k) := fun hh => h.1 hh.symm
    unfold lookupKey
    rw [if_neg hk]
    exact ih h.2

theorem map_recoerceField_of_none (now : Int) (rec : List (String × JVal))
    (h : lookupKey rec "expires_at" = none) :
    rec.map (recoerceField now) = rec := by
  induction rec with
  | nil => rfl
  | cons p rest ih =>
    obtain ⟨k₀, v₀⟩ := p
    unfold lookupKey at h
    by_cases hp : k₀ = "expires_at"
    · rw [if_pos hp] at h
      exact Option.noConfusion h
    · rw [if_neg hp] at h
      simp only [List.map_cons, ih h]
      simp [recoerceField, hp]

theorem coerce_expires_cons_ne (now : Int) (k₀ : String) (v₀ : JVal)
    (rest : List (String × JVal)) (hp : k₀ ≠ "expires_at") :
    coerce_expires now ((k₀, v₀) :: rest) = (k₀, v₀) :: coerce_expires now rest := by
  unfold coerce_expires
  have hl : lookupKey ((k₀, v₀) :: rest) "expires_at" = lookupKey rest "expires_at" := by
    simp [lookupKey, hp]
  rw [hl]
  cases hr : lookupKey rest "expires_at" with
  | none => rfl
  | some w => simp [setKey, hp]

/-- On a record with duplicate-free field names (any Python dict),
`load_all`'s in-place `expires_at` coercion is exactly the fieldwise
`recoerceField` map. -/
theorem coerce_expires_eq_map (now : Int) (rec : List (String × JVal))
    (hnd : (rec.map Prod.fst).Nodup) :
    coerce_expires now rec = rec.map (recoerceField now) := by
  induction rec with
  | nil => rfl
  | cons p rest ih =>
    obtain ⟨k₀, v₀⟩ := p
    simp only [List.map_cons] at hnd
    have hnotmem := (List.nodup_cons.mp hnd).1
    have hnd2 := (List.nodup_cons.mp hnd).2
    by_cases hp : k₀ = "expires_at"
    · subst hp
      have hl : lookupKey (("expires_at", v₀) :: rest) "expires_at" = some v₀ := by
        simp [lookupKey]
      rw [coerce_expires_of_some now _ v₀ hl]
      have hrest : rest.map (recoerceField now) = rest :=
        map_recoerceField_of_none now rest
          (lookupKey_eq_none_of_not_mem rest "expires_at" hnotmem)
      simp [setKey, recoerceField, hrest]
    · rw [coerce_expires_cons_ne now k₀ v₀ rest hp, ih hnd2]
      simp [recoerceField, hp]

/-- C10: `require_admin` raises 401 exactly when the supplied header
value differs from the configured `ADMIN_TOKEN`; in particular with
`ADMIN_TOKEN` unconfigured (`None`) a request omitting the header
(`None`) passes the admin check. -/
theorem require_admin_unauthorized_iff (a t : Option String) :
    (require_admin a t = Except.error 401 ↔ a ≠ t) ∧
    require_admin none none = Except.ok () := by
  refine ⟨?_, rfl⟩
  unfold require_admin
  by_cases h : a = t
  · simp [h]
  · simp [h]

/-- C7: the audit buffer is a fixed-capacity FIFO of capacity 200:
pushing any 201 entries into an empty buffer leaves exactly the most
recent 200, in insertion order, the single oldest entry evicted
automatically. -/
theorem pending_fifo_eviction_201 (es : List JVal) (h : es.length = 201) :
    List.foldl dqPush [] es = es.drop 1 ∧
    (List.foldl dqPush [] es).length = BUFFER_MAX := by
  have hfold := foldl_dqPush_eq_drop es [] (by simp [BUFFER_MAX])
  rw [List.nil_append] at hfold
  constructor
  · rw [hfold, h]
    norm_num [BUFFER_MAX]
  · rw [hfold]
    simp [h, BUFFER_MAX]

/-- Witness for C7 at the concrete entries `jint 0, …, jint 200`. -/
theorem pending_fifo_eviction_201_witness :
    (List.map (fun n => JVal.jint (Int.ofNat n)) (List.range 201)).length = 201 ∧
    (List.foldl dqPush [] (List.map (fun n => JVal.jint (Int.ofNat n)) (List.range 201)) =
        (List.map (fun n => JVal.jint (Int.ofNat n)) (List.range 201)).drop 1 ∧
      (List.foldl dqPush [] (List.map (fun n => JVal.jint (Int.ofNat n)) (List.range 201))).length
        = BUFFER_MAX) :=
  ⟨by rw [List.length_map, List.length_range],
   pending_fifo_eviction_201 _ (by rw [List.length_map, List.length_range])⟩

/-- C9: a callback request with `code` or `state` absent is rejected with
400 "Missing code/state" and mutates nothing: no audit entry is appended,
no file is written, and both the token map and deque are unchanged. -/
theorem hh_callback_missing_param (ex : ProviderResult) (now : Int)
    (ip : Option String) (code state : Option String) (st : AppState)
    (h : code = none ∨ state = none) :
    hh_callback ex now ip code state st =
      ⟨.resp 400 "Missing code/state", st, 0, 0⟩ := by
  unfold hh_callback
  rcases h with h | h <;> subst h <;> simp [pyTruthyStrOpt]

/-- Witness for C9: a request with `code` absent. -/
theorem hh_callback_missing_param_witness :
    ((none : Option String) = none ∨ (some "xyz" : Option String) = none) ∧
    hh_callback ⟨true, [], ""⟩ 0 none none (some "xyz") ⟨[], [], [], []⟩ =
      ⟨.resp 400 "Missing code/state", ⟨[], [], [], []⟩, 0, 0⟩ :=
  ⟨Or.inl rfl, hh_callback_missing_param _ _ _ _ _ _ (Or.inl rfl)⟩

/-- C6 counterexample: a record for state "s" exists (the degenerate
empty dict, which `load_all` keeps from a file holding `{"s": {}}`), the
delete removes it, yet the endpoint reports `deleted = false`, because
`bool(existed)` is `False` for an empty dict — refuting
"deleted = true iff a record for that state existed". -/
theorem admin_delete_report_counterexample :
    lookupKey [("s", JVal.jobj [])] "s" = some (JVal.jobj []) ∧
    (admin_delete_state (some "a") (some "a") "s" [("s", JVal.jobj [])] []).resp
      = Except.ok false ∧
    (admin_delete_state (some "a") (some "a") "s" [("s", JVal.jobj [])] []).tokens
      = [] :=
  ⟨rfl, rfl, rfl⟩

/-- C6 (amended): with a passing admin check, delete removes any record
for `state`, durably writes the resulting map (one `save_tokens`, file =
map afterwards), and reports `deleted = true` iff a *truthy* (non-empty)
record existed; deleting a non-existent `state` reports `false` and
leaves the token map unchanged while still writing it. -/
theorem admin_delete_state_spec (A a : Option String) (state : String)
    (tokens disk : TokMap) (hauth : a = A) :
    ((admin_delete_state A a state tokens disk).resp = Except.ok true ↔
        ∃ v, lookupKey tokens state = some v ∧ pyTruthy v = true) ∧
    (admin_delete_state A a state tokens disk).tokens = popKey tokens state ∧
    (admin_delete_state A a state tokens disk).disk = popKey tokens state ∧
    (admin_delete_state A a state tokens disk).saves = 1 ∧
    (lookupKey tokens state = none →
        (admin_delete_state A a state tokens disk).resp = Except.ok false ∧
        (admin_delete_state A a state tokens disk).tokens = tokens) := by
  subst hauth
  have hra : require_admin a a = Except.ok () := by
    unfold require_admin
    simp
  have hrepr : admin_delete_state a a state tokens disk =
      ⟨Except.ok (match lookupKey tokens state with
                  | some v => pyTruthy v
                  | none => false),
       popKey tokens state, popKey tokens state, 1⟩ := by
    unfold admin_delete_state
    rw [hra]
  rw [hrepr]
  refine ⟨?_, rfl, rfl, rfl, ?_⟩
  · cases hl : lookupKey tokens state with
    | none => simp
    | some v => simp
  · intro h0
    rw [h0]
    exact ⟨rfl, popKey_of_lookupKey_none tokens state h0⟩

/-- Witness for C6 (amended) on a one-record map. -/
theorem admin_delete_state_spec_witness :
    ((admin_delete_state (some "a") (some "a") "s"
        [("s", JVal.jobj [("access_token", JVal.jstr "x")])] []).resp
          = Except.ok true ↔
      ∃ v, lookupKey [("s", JVal.jobj [("access_token", JVal.jstr "x")])] "s"
          = some v ∧ pyTruthy v = true) ∧
    (admin_delete_state (some "a") (some "a") "s"
        [("s", JVal.jobj [("access_token", JVal.jstr "x")])] []).tokens
      = popKey [("s", JVal.jobj [("access_token", JVal.jstr "x")])] "s" ∧
    (admin_delete_state (some "a") (some "a") "s"
        [("s", JVal.jobj [("access_token", JVal.jstr "x")])] []).disk
      = popKey [("s", JVal.jobj [("access_token", JVal.jstr "x")])] "s" ∧
    (admin_delete_state (some "a") (some "a") "s"
        [("s", JVal.jobj [("access_token", JVal.jstr "x")])] []).saves = 1 ∧
    (lookupKey [("s", JVal.jobj [("access_token", JVal.jstr "x")])] "s" = none →
        (admin_delete_state (some "a") (some "a") "s"
            [("s", JVal.jobj [("access_token", JVal.jstr "x")])] []).resp
          = Except.ok false ∧
        (admin_delete_state (some "a") (some "a") "s"
            [("s", JVal.jobj [("access_token", JVal.jstr "x")])] []).tokens
          = [("s", JVal.jobj [("access_token", JVal.jstr "x")])]) :=
  admin_delete_state_spec (some "a") (some "a") "s"
    [("s", JVal.jobj [("access_token", JVal.jstr "x")])] [] rfl

/-- C3 counterexample: loading `{"s": {"access_token": "x"}}` keeps the
entry even though it has no `expires_at` at all — the record is not
dropped, and the resulting in-memory record has no integer `expires_at`
field, refuting both "every record has an integer expires_at" and
"entries lacking the field are dropped". -/
theorem load_tokens_drop_counterexample :
    load_tokens (JVal.jobj [("s", JVal.jobj [("access_token", JVal.jstr "x")])]) 1000
      = [("s", JVal.jobj [("access_token", JVal.jstr "x")])] ∧
    lookupKey [("access_token", JVal.jstr "x")] "expires_at" = none :=
  ⟨rfl, rfl⟩

/-- C3 (amended): after `load_all` every kept entry is a dict — non-dict
entries are dropped — and any `expires_at` field a kept record does have
is an integer (an unparseable value having been replaced by load-time
`now + 300`); a record lacking the field is kept without it rather than
dropped. -/
theorem load_tokens_invariant (loaded : JVal) (now : Int) (k : String) (v : JVal)
    (hmem : (k, v) ∈ load_tokens loaded now) :
    ∃ fields, v = JVal.jobj fields ∧
      ∀ w, lookupKey fields "expires_at" = some w → ∃ n : Int, w = JVal.jint n := by
  cases loaded with
  | jobj fs =>
    unfold load_tokens at hmem
    simp only [List.mem_filterMap] at hmem
    obtain ⟨⟨k', v'⟩, hkv, heq⟩ := hmem
    cases v' <;> simp at heq
    obtain ⟨hk, hv⟩ := heq
    exact ⟨_, hv.symm, fun w hw => coerce_expires_int now _ w hw⟩
  | jnull => simp [load_tokens] at hmem
  | jbool b => simp [load_tokens] at hmem
  | jint n => simp [load_tokens] at hmem
  | jstr s => simp [load_tokens] at hmem
  | jarr xs => simp [load_tokens] at hmem

/-- Witness for C3 (amended): a loaded file whose record has an
unparseable (`null`) `expires_at`, which reloads as `now + 300 = 1300`. -/
theorem load_tokens_invariant_witness :
    ∃ fields, JVal.jobj [("expires_at", JVal.jint 1300)] = JVal.jobj fields ∧
      ∀ w, lookupKey fields "expires_at" = some w → ∃ n : Int, w = JVal.jint n :=
  load_tokens_invariant
    (JVal.jobj [("s", JVal.jobj [("expires_at", JVal.jnull)])]) 1000
    "s" (JVal.jobj [("expires_at", JVal.jint 1300)])
    (List.mem_singleton.mpr rfl)

/-- C4 counterexample: the map `{"s": {..., "expires_at": true}}` does
not round-trip identically.  Python's `int(True)` succeeds (it is `1`),
so reload stores the integer `1`: the reloaded map differs from the
original, and the entry was *not* assigned `now + 300` either — refuting
"identical except non-integer expires_at becomes now+300" under both
readings of "parseable". -/
theorem save_load_roundtrip_counterexample :
    load_tokens (JVal.jobj [("s", JVal.jobj
        [("access_token", JVal.jstr "x"), ("expires_at", JVal.jbool true)])]) 1000
      = [("s", JVal.jobj
          [("access_token", JVal.jstr "x"), ("expires_at", JVal.jint 1)])] ∧
    ¬ (load_tokens (JVal.jobj [("s", JVal.jobj
          [("access_token", JVal.jstr "x"), ("expires_at", JVal.jbool true)])]) 1000
        = [("s", JVal.jobj
            [("access_token", JVal.jstr "x"), ("expires_at", JVal.jbool true)])]) ∧
    ¬ (load_tokens (JVal.jobj [("s", JVal.jobj
          [("access_token", JVal.jstr "x"), ("expires_at", JVal.jbool true)])]) 1000
        = [("s", JVal.jobj
            [("access_token", JVal.jstr "x"), ("expires_at", JVal.jint (1000 + 300))])]) := by
  have h1 : load_tokens (JVal.jobj [("s", JVal.jobj
      [("access_token", JVal.jstr "x"), ("expires_at", JVal.jbool true)])]) 1000
      = [("s", JVal.jobj
          [("access_token", JVal.jstr "x"), ("expires_at", JVal.jint 1)])] := rfl
  refine ⟨h1, ?_, ?_⟩
  · rw [h1]
    simp
  · rw [h1]
    simp

/-- C4 (amended): saving any token map whose records are dicts (with
duplicate-free field names, as Python dicts have) and reloading it yields
the same map except that each record's `expires_at` field, when present,
is re-coerced through `int()` — parseable values replaced by their
integer value, unparseable ones by load-time `now + 300`; entries lacking
`expires_at`, and every other field, are unchanged. -/
theorem save_load_roundtrip (m : TokMap) (now : Int)
    (hobj : ∀ kv ∈ m, ∃ rec, kv.2 = JVal.jobj rec ∧ (rec.map Prod.fst).Nodup) :
    load_tokens (JVal.jobj m) now
      = m.map fun kv => (kv.1, recoerce_expires_spec now kv.2) := by
  induction m with
  | nil => rfl
  | cons kv m ih =>
    obtain ⟨rec, hrec, hnd⟩ := hobj kv (List.mem_cons_self kv m)
    obtain ⟨k', v'⟩ := kv
    simp only at hrec
    subst hrec
    have ihm := ih fun kv h => hobj kv (List.mem_cons_of_mem _ h)
    unfold load_tokens at ihm ⊢
    simp only [List.filterMap_cons, List.map_cons]
    rw [coerce_expires_eq_map now rec hnd]
    simp only [recoerce_expires_spec]
    exact congrArg (fun t => (k', JVal.jobj (List.map (recoerceField now) rec)) :: t) ihm

/-- Witness for C4 (amended) on a well-formed one-record map. -/
theorem save_load_roundtrip_witness :
    load_tokens (JVal.jobj [("s", JVal.jobj
        [("access_token", JVal.jstr "x"), ("expires_at", JVal.jint 50)])]) 777
      = [("s", JVal.jobj
          [("access_token", JVal.jstr "x"), ("expires_at", JVal.jint 50)])].map
            (fun kv => (kv.1, recoerce_expires_spec 777 kv.2)) :=
  save_load_roundtrip _ 777 (by
    intro kv hkv
    rw [List.mem_singleton] at hkv
    subst hkv
    exact ⟨_, rfl, by decide⟩)

/-- Reduction of `get_valid_access_token_for_state` on a fresh record
(`now < expires_at - 60`): returned as-is, nothing touched. -/
theorem get_valid_fresh_eq (provider : ProviderResult) (now : Int)
    (tokens disk : TokMap) (state : String) (rec : List (String × JVal)) (e : Int)
    (hlook : lookupKey tokens state = some (JVal.jobj rec))
    (htruthy : pyTruthy (JVal.jobj rec) = true)
    (hexp : pyInt ((lookupKey rec "expires_at").getD (JVal.jint 0)) = some e)
    (hfresh : ¬ now ≥ e - 60) :
    get_valid_access_token_for_state provider now tokens disk state
      = ⟨GVOut.ok (some (JVal.jobj rec)), tokens, disk, 0, 0⟩ := by
  unfold get_valid_access_token_for_state
  rw [hlook]
  simp only [htruthy, hexp, Bool.not_true]
  rw [if_neg (by simp)]
  rw [if_neg hfresh]

/-- Reduction on a stale record without a truthy refresh token:
returned as-is, nothing touched, no refresh call. -/
theorem get_valid_stale_noRT_eq (provider : ProviderResult) (now : Int)
    (tokens disk : TokMap) (state : String) (rec : List (String × JVal)) (e : Int)
    (hlook : lookupKey tokens state = some (JVal.jobj rec))
    (htruthy : pyTruthy (JVal.jobj rec) = true)
    (hexp : pyInt ((lookupKey rec "expires_at").getD (JVal.jint 0)) = some e)
    (hstale : now ≥ e - 60)
    (hnort : pyTruthy ((lookupKey rec "refresh_token").getD JVal.jnull) = false) :
    get_valid_access_token_for_state provider now tokens disk state
      = ⟨GVOut.ok (some (JVal.jobj rec)), tokens, disk, 0, 0⟩ := by
  unfold get_valid_access_token_for_state
  rw [hlook]
  simp only [htruthy, hexp, hnort, Bool.not_true, Bool.not_false]
  rw [if_neg (by simp)]
  rw [if_pos hstale]
  exact if_pos trivial

/-- Reduction on a stale record with a truthy refresh token: exactly one
refresh HTTP call is issued, whatever its outcome. -/
theorem get_valid_stale_rt_calls (provider : ProviderResult) (now : Int)
    (tokens disk : TokMap) (state : String) (rec : List (String × JVal)) (e : Int)
    (hlook : lookupKey tokens state = some (JVal.jobj rec))
    (htruthy : pyTruthy (JVal.jobj rec) = true)
    (hexp : pyInt ((lookupKey rec "expires_at").getD (JVal.jint 0)) = some e)
    (hstale : now ≥ e - 60)
    (hrt : pyTruthy ((lookupKey rec "refresh_token").getD JVal.jnull) = true) :
    (get_valid_access_token_for_state provider now tokens disk state).refreshCalls
      = 1 := by
  unfold get_valid_access_token_for_state
  rw [hlook]
  simp only [htruthy, hexp, hrt, Bool.not_true, Bool.not_false]
  rw [if_neg (by simp)]
  rw [if_pos hstale]
  rw [if_neg (by simp)]
  split
  · rfl
  · split <;> rfl

/-- C1 counterexample: a stored record with `expires_at = now + 59` and
no refresh token is stale, yet `get_valid_access_token_for_state` issues
zero refresh calls — refuting "with expires_at = now + 59 it triggers
exactly one refresh call" as quantified over every stored record. -/
theorem freshness_margin_counterexample :
    lookupKey [("s", JVal.jobj
        [("access_token", JVal.jstr "T"), ("expires_at", JVal.jint (1000 + 59))])] "s"
      = some (JVal.jobj
          [("access_token", JVal.jstr "T"), ("expires_at", JVal.jint (1000 + 59))]) ∧
    (get_valid_access_token_for_state ⟨true, [("access_token", JVal.jstr "T2")], ""⟩
        1000
        [("s", JVal.jobj
          [("access_token", JVal.jstr "T"), ("expires_at", JVal.jint (1000 + 59))])]
        [] "s").refreshCalls = 0 :=
  ⟨rfl, rfl⟩

/-- C1 (amended): for a stored, truthy record with integer-coercible
`expires_at = e`, `get_valid_access_token_for_state` applies the
60-second margin exactly: with a truthy refresh token it issues a
refresh call iff `now ≥ e - 60` (exactly one call when stale, e.g.
`e = now + 59`; none when fresh, e.g. `e = now + 61`); without a
refresh token it never issues one; and a fresh record is returned
unchanged with no state or file mutation. -/
theorem get_valid_freshness_margin (provider : ProviderResult) (now : Int)
    (tokens disk : TokMap) (state : String) (rec : List (String × JVal)) (e : Int)
    (hlook : lookupKey tokens state = some (JVal.jobj rec))
    (htruthy : pyTruthy (JVal.jobj rec) = true)
    (hexp : pyInt ((lookupKey rec "expires_at").getD (JVal.jint 0)) = some e) :
    (pyTruthy ((lookupKey rec "refresh_token").getD JVal.jnull) = true →
      (get_valid_access_token_for_state provider now tokens disk state).refreshCalls
        = if now ≥ e - 60 then 1 else 0) ∧
    (pyTruthy ((lookupKey rec "refresh_token").getD JVal.jnull) = false →
      (get_valid_access_token_for_state provider now tokens disk state).refreshCalls
        = 0) ∧
    (¬ now ≥ e - 60 →
      get_valid_access_token_for_state provider now tokens disk state
        = ⟨GVOut.ok (some (JVal.jobj rec)), tokens, disk, 0, 0⟩) := by
  refine ⟨?_, ?_, ?_⟩
  · intro hrt
    by_cases hst : now ≥ e - 60
    · rw [if_pos hst]
      exact get_valid_stale_rt_calls provider now tokens disk state rec e
        hlook htruthy hexp hst hrt
    · rw [if_neg hst,
        get_valid_fresh_eq provider now tokens disk state rec e
          hlook htruthy hexp hst]
  · intro hnort
    by_cases hst : now ≥ e - 60
    · rw [get_valid_stale_noRT_eq provider now tokens disk state rec e
        hlook htruthy hexp hst hnort]
    · rw [get_valid_fresh_eq provider now tokens disk state rec e
        hlook htruthy hexp hst]
  · intro hfresh
    exact get_valid_fresh_eq provider now tokens disk state rec e
      hlook htruthy hexp hfresh

/-- Witness for C1 (amended) on a fresh record with `expires_at = now + 61`. -/
theorem get_valid_freshness_margin_witness :
    (pyTruthy ((lookupKey
          [("access_token", JVal.jstr "T"), ("refresh_token", JVal.jstr "R1"),
           ("expires_at", JVal.jint 1061)] "refresh_token").getD JVal.jnull) = true →
      (get_valid_access_token_for_state ⟨true, [], ""⟩ 1000
          [("s", JVal.jobj
            [("access_token", JVal.jstr "T"), ("refresh_token", JVal.jstr "R1"),
             ("expires_at", JVal.jint 1061)])] [] "s").refreshCalls
        = if (1000 : Int) ≥ 1061 - 60 then 1 else 0) ∧
    (pyTruthy ((lookupKey
          [("access_token", JVal.jstr "T"), ("refresh_token", JVal.jstr "R1"),
           ("expires_at", JVal.jint 1061)] "refresh_token").getD JVal.jnull) = false →
      (get_valid_access_token_for_state ⟨true, [], ""⟩ 1000
          [("s", JVal.jobj
            [("access_token", JVal.jstr "T"), ("refresh_token", JVal.jstr "R1"),
             ("expires_at", JVal.jint 1061)])] [] "s").refreshCalls = 0) ∧
    (¬ (1000 : Int) ≥ 1061 - 60 →
      get_valid_access_token_for_state ⟨true, [], ""⟩ 1000
          [("s", JVal.jobj
            [("access_token", JVal.jstr "T"), ("refresh_token", JVal.jstr "R1"),
             ("expires_at", JVal.jint 1061)])] [] "s"
        = ⟨GVOut.ok (some (JVal.jobj
            [("access_token", JVal.jstr "T"), ("refresh_token", JVal.jstr "R1"),
             ("expires_at", JVal.jint 1061)])),
           [("s", JVal.jobj
             [("access_token", JVal.jstr "T"), ("refresh_token", JVal.jstr "R1"),
              ("expires_at", JVal.jint 1061)])], [], 0, 0⟩) :=
  get_valid_freshness_margin ⟨true, [], ""⟩ 1000
    [("s", JVal.jobj
      [("access_token", JVal.jstr "T"), ("refresh_token", JVal.jstr "R1"),
       ("expires_at", JVal.jint 1061)])] [] "s"
    [("access_token", JVal.jstr "T"), ("refresh_token", JVal.jstr "R1"),
     ("expires_at", JVal.jint 1061)] 1061 rfl rfl rfl

/-- C8: a stored truthy record that is stale (`now ≥ expires_at - 60`)
and has no (truthy) refresh token is returned exactly as stored, with no
refresh HTTP call, no `save_tokens`, and the token map and file
untouched. -/
theorem get_valid_stale_no_refresh_token (provider : ProviderResult) (now : Int)
    (tokens disk : TokMap) (state : String) (rec : List (String × JVal)) (e : Int)
    (hlook : lookupKey tokens state = some (JVal.jobj rec))
    (htruthy : pyTruthy (JVal.jobj rec) = true)
    (hexp : pyInt ((lookupKey rec "expires_at").getD (JVal.jint 0)) = some e)
    (hstale : now ≥ e - 60)
    (hnort : pyTruthy ((lookupKey rec "refresh_token").getD JVal.jnull) = false) :
    get_valid_access_token_for_state provider now tokens disk state
      = ⟨GVOut.ok (some (JVal.jobj rec)), tokens, disk, 0, 0⟩ :=
  get_valid_stale_noRT_eq provider now tokens disk state rec e
    hlook htruthy hexp hstale hnort

/-- Witness for C8 on a record with `expires_at = now + 59` and no
refresh token. -/
theorem get_valid_stale_no_refresh_token_witness :
    (1000 : Int) ≥ 1059 - 60 ∧
    get_valid_access_token_for_state ⟨true, [], ""⟩ 1000
        [("s", JVal.jobj
          [("access_token", JVal.jstr "T"), ("expires_at", JVal.jint 1059)])] [] "s"
      = ⟨GVOut.ok (some (JVal.jobj
          [("access_token", JVal.jstr "T"), ("expires_at", JVal.jint 1059)])),
         [("s", JVal.jobj
           [("access_token", JVal.jstr "T"), ("expires_at", JVal.jint 1059)])],
         [], 0, 0⟩ :=
  ⟨by decide,
   get_valid_stale_no_refresh_token ⟨true, [], ""⟩ 1000
     [("s", JVal.jobj
       [("access_token", JVal.jstr "T"), ("expires_at", JVal.jint 1059)])] [] "s"
     [("access_token", JVal.jstr "T"), ("expires_at", JVal.jint 1059)] 1059
     rfl rfl rfl (by decide) rfl⟩

/-- Reduction of the whole successful-refresh path: HTTP success with a
parseable `expires_in` and an `access_token` in the body rebuilds the
record, stores it, persists and returns it. -/
theorem get_valid_refresh_ok_eq (provider : ProviderResult) (now : Int)
    (tokens disk : TokMap) (state : String) (rec : List (String × JVal))
    (e ei : Int) (atv : JVal)
    (hlook : lookupKey tokens state = some (JVal.jobj rec))
    (htruthy : pyTruthy (JVal.jobj rec) = true)
    (hexp : pyInt ((lookupKey rec "expires_at").getD (JVal.jint 0)) = some e)
    (hstale : now ≥ e - 60)
    (hrt : pyTruthy ((lookupKey rec "refresh_token").getD JVal.jnull) = true)
    (hok : provider.ok = true)
    (hei : pyInt ((lookupKey provider.resp "expires_in").getD (JVal.jint 3600))
        = some ei)
    (hat : lookupKey provider.resp "access_token" = some atv) :
    get_valid_access_token_for_state provider now tokens disk state =
      ⟨GVOut.ok (some (JVal.jobj
        [("access_token", atv),
         ("refresh_token",
           (lookupKey (setKey provider.resp "expires_at" (JVal.jint (now + ei)))
             "refresh_token").getD ((lookupKey rec "refresh_token").getD JVal.jnull)),
         ("token_type",
           (lookupKey (setKey provider.resp "expires_at" (JVal.jint (now + ei)))
             "token_type").getD (JVal.jstr "Bearer")),
         ("expires_in",
           (lookupKey (setKey provider.resp "expires_at" (JVal.jint (now + ei)))
             "expires_in").getD JVal.jnull),
         ("expires_at",
           (lookupKey (setKey provider.resp "expires_at" (JVal.jint (now + ei)))
             "expires_at").getD JVal.jnull)])),
       setKey tokens state (JVal.jobj
        [("access_token", atv),
         ("refresh_token",
           (lookupKey (setKey provider.resp "expires_at" (JVal.jint (now + ei)))
             "refresh_token").getD ((lookupKey rec "refresh_token").getD JVal.jnull)),
         ("token_type",
           (lookupKey (setKey provider.resp "expires_at" (JVal.jint (now + ei)))
             "token_type").getD (JVal.jstr "Bearer")),
         ("expires_in",
           (lookupKey (setKey provider.resp "expires_at" (JVal.jint (now + ei)))
             "expires_in").getD JVal.jnull),
         ("expires_at",
           (lookupKey (setKey provider.resp "expires_at" (JVal.jint (now + ei)))
             "expires_at").getD JVal.jnull)]),
       setKey tokens state (JVal.jobj
        [("access_token", atv),
         ("refresh_token",
           (lookupKey (setKey provider.resp "expires_at" (JVal.jint (now + ei)))
             "refresh_token").getD ((lookupKey rec "refresh_token").getD JVal.jnull)),
         ("token_type",
           (lookupKey (setKey provider.resp "expires_at" (JVal.jint (now + ei)))
             "token_type").getD (JVal.jstr "Bearer")),
         ("expires_in",
           (lookupKey (setKey provider.resp "expires_at" (JVal.jint (now + ei)))
             "expires_in").getD JVal.jnull),
         ("expires_at",
           (lookupKey (setKey provider.resp "expires_at" (JVal.jint (now + ei)))
             "expires_at").getD JVal.jnull)]),
       1, 1⟩ := by
  have hne : normalize_exchange provider now
      = Except.ok (setKey provider.resp "expires_at" (JVal.jint (now + ei))) := by
    unfold normalize_exchange
    rw [hok]
    simp only [Bool.not_true]
    rw [if_neg (by simp)]
    rw [hei]
  have hat' : lookupKey (setKey provider.resp "expires_at" (JVal.jint (now + ei)))
      "access_token" = some atv := by
    rw [lookupKey_setKey_ne provider.resp "expires_at" "access_token" _ (by decide)]
    exact hat
  unfold get_valid_access_token_for_state
  rw [hlook]
  simp only [htruthy, hexp, hrt, Bool.not_true, Bool.not_false]
  rw [if_neg (by simp)]
  rw [if_pos hstale]
  rw [if_neg (by simp)]
  simp only [hne, hat']

/-- C2: for a stored, truthy, stale record with a (truthy) refresh token,
after a successful refresh exchange (HTTP success, body carrying an
`access_token`, `expires_in` absent or integer-coercible) the stored
record for `state` holds the response's access token; its
`refresh_token` is the response's when the response contains that key and
the prior refresh token otherwise; and the updated record is persisted
(one `save_tokens`, file = map) and returned. -/
theorem get_valid_refresh_retention (provider : ProviderResult) (now : Int)
    (tokens disk : TokMap) (state : String) (rec : List (String × JVal))
    (e ei : Int) (atv : JVal)
    (hlook : lookupKey tokens state = some (JVal.jobj rec))
    (htruthy : pyTruthy (JVal.jobj rec) = true)
    (hexp : pyInt ((lookupKey rec "expires_at").getD (JVal.jint 0)) = some e)
    (hstale : now ≥ e - 60)
    (hrt : pyTruthy ((lookupKey rec "refresh_token").getD JVal.jnull) = true)
    (hok : provider.ok = true)
    (hei : pyInt ((lookupKey provider.resp "expires_in").getD (JVal.jint 3600))
        = some ei)
    (hat : lookupKey provider.resp "access_token" = some atv) :
    ∃ fields,
      (get_valid_access_token_for_state provider now tokens disk state).out
          = GVOut.ok (some (JVal.jobj fields)) ∧
      lookupKey
          (get_valid_access_token_for_state provider now tokens disk state).tokens
          state = some (JVal.jobj fields) ∧
      (get_valid_access_token_for_state provider now tokens disk state).disk
          = (get_valid_access_token_for_state provider now tokens disk state).tokens ∧
      (get_valid_access_token_for_state provider now tokens disk state).saves = 1 ∧
      lookupKey fields "access_token" = some atv ∧
      lookupKey fields "refresh_token"
          = some ((lookupKey provider.resp "refresh_token").getD
                    ((lookupKey rec "refresh_token").getD JVal.jnull)) := by
  rw [get_valid_refresh_ok_eq provider now tokens disk state rec e ei atv
    hlook htruthy hexp hstale hrt hok hei hat]
  have hrt' : lookupKey (setKey provider.resp "expires_at" (JVal.jint (now + ei)))
      "refresh_token" = lookupKey provider.resp "refresh_token" :=
    lookupKey_setKey_ne provider.resp "expires_at" "refresh_token" _ (by decide)
  refine ⟨_, rfl, lookupKey_setKey_self _ _ _, rfl, rfl, rfl, ?_⟩
  show some ((lookupKey (setKey provider.resp "expires_at" (JVal.jint (now + ei)))
      "refresh_token").getD ((lookupKey rec "refresh_token").getD JVal.jnull)) = _
  rw [hrt']

/-- Witness for C2: a stale record with refresh token "R1" refreshed by a
response `{access_token: "T2", expires_in: 100}` that omits
`refresh_token` (so "R1" is retained). -/
theorem get_valid_refresh_retention_witness :
    ∃ fields,
      (get_valid_access_token_for_state
          ⟨true, [("access_token", JVal.jstr "T2"), ("expires_in", JVal.jint 100)], ""⟩
          1000
          [("s", JVal.jobj
            [("access_token", JVal.jstr "T"), ("refresh_token", JVal.jstr "R1"),
             ("expires_at", JVal.jint 1059)])] [] "s").out
          = GVOut.ok (some (JVal.jobj fields)) ∧
      lookupKey
          (get_valid_access_token_for_state
            ⟨true, [("access_token", JVal.jstr "T2"), ("expires_in", JVal.jint 100)], ""⟩
            1000
            [("s", JVal.jobj
              [("access_token", JVal.jstr "T"), ("refresh_token", JVal.jstr "R1"),
               ("expires_at", JVal.jint 1059)])] [] "s").tokens
          "s" = some (JVal.jobj fields) ∧
      (get_valid_access_token_for_state
          ⟨true, [("access_token", JVal.jstr "T2"), ("expires_in", JVal.jint 100)], ""⟩
          1000
          [("s", JVal.jobj
            [("access_token", JVal.jstr "T"), ("refresh_token", JVal.jstr "R1"),
             ("expires_at", JVal.jint 1059)])] [] "s").disk
          = (get_valid_access_token_for_state
              ⟨true, [("access_token", JVal.jstr "T2"), ("expires_in", JVal.jint 100)], ""⟩
              1000
              [("s", JVal.jobj
                [("access_token", JVal.jstr "T"), ("refresh_token", JVal.jstr "R1"),
                 ("expires_at", JVal.jint 1059)])] [] "s").tokens ∧
      (get_valid_access_token_for_state
          ⟨true, [("access_token", JVal.jstr "T2"), ("expires_in", JVal.jint 100)], ""⟩
          1000
          [("s", JVal.jobj
            [("access_token", JVal.jstr "T"), ("refresh_token", JVal.jstr "R1"),
             ("expires_at", JVal.jint 1059)])] [] "s").saves = 1 ∧
      lookupKey fields "access_token" = some (JVal.jstr "T2") ∧
      lookupKey fields "refresh_token"
          = some ((lookupKey
                [("access_token", JVal.jstr "T2"), ("expires_in", JVal.jint 100)]
                "refresh_token").getD
              ((lookupKey
                  [("access_token", JVal.jstr "T"), ("refresh_token", JVal.jstr "R1"),
                   ("expires_at", JVal.jint 1059)] "refresh_token").getD JVal.jnull)) :=
  get_valid_refresh_retention
    ⟨true, [("access_token", JVal.jstr "T2"), ("expires_in", JVal.jint 100)], ""⟩
    1000
    [("s", JVal.jobj
      [("access_token", JVal.jstr "T"), ("refresh_token", JVal.jstr "R1"),
       ("expires_at", JVal.jint 1059)])] [] "s"
    [("access_token", JVal.jstr "T"), ("refresh_token", JVal.jstr "R1"),
     ("expires_at", JVal.jint 1059)] 1059 100 (JVal.jstr "T2")
    rfl rfl rfl (by decide) rfl rfl rfl rfl

/-- C5: on a callback with both `code` and `state` present whose
code-for-token exchange fails with an `httpx.HTTPError`, the audit entry
has already been appended and durably written (one `save_pending`,
pending file = deque), no token record is created or modified (token map
and token file untouched, zero `save_tokens`), and a 500 text response
carrying the underlying failure message is returned. -/
theorem hh_callback_exchange_http_error (ex : ProviderResult) (now : Int)
    (ip : Option String) (c s : String) (st : AppState)
    (hc : c ≠ "") (hs : s ≠ "") (hfail : ex.ok = false) :
    hh_callback ex now ip (some c) (some s) st =
      ⟨.resp 500 ("Ошибка авторизации: " ++ ex.errMsg),
       { st with pending := dqPush st.pending (audit_item now ip c s),
                 pendingDisk := dqPush st.pending (audit_item now ip c s) },
       0, 1⟩ := by
  have hne : normalize_exchange ex now = .error (.http ex.errMsg) := by
    unfold normalize_exchange
    rw [hfail]
    exact if_pos rfl
  unfold hh_callback
  rw [if_neg (by simp [pyTruthyStrOpt, hc, hs])]
  simp only [hne]
  rfl

/-- Witness for C5: provider failure "boom" on a callback with
`code=abc`, `state=xyz` against an empty store. -/
theorem hh_callback_exchange_http_error_witness :
    (⟨false, [], "boom"⟩ : ProviderResult).ok = false ∧
    hh_callback ⟨false, [], "boom"⟩ 5 (some "1.2.3.4")
        (some "abc") (some "xyz") ⟨[], [], [], []⟩ =
      ⟨.resp 500 ("Ошибка авторизации: " ++ "boom"),
       ⟨[], dqPush [] (audit_item 5 (some "1.2.3.4") "abc" "xyz"), [],
        dqPush [] (audit_item 5 (some "1.2.3.4") "abc" "xyz")⟩,
       0, 1⟩ :=
  ⟨rfl,
   hh_callback_exchange_http_error ⟨false, [], "boom"⟩ 5 (some "1.2.3.4")
     "abc" "xyz" ⟨[], [], [], []⟩ (by decide) (by decide) rfl⟩
